import Mathlib

/-
  Verification of the grist-canvas-widget repository.

  The widget's core is written in JavaScript/JSX (src/src/App.jsx and the
  unnamed variants).  This file shallowly embeds the pure parts that the
  claims are about:

  * the record mapper `mappedData` (both variants share the numeric logic:
      x: (Math.round(Number(rec.X)) || 0) + 1,
      y: (Math.round(Number(rec.Y)) || 0) + 1,
      w: Math.round(Number(rec.W)) || 2,
      h: Math.round(Number(rec.H)) || 1,
    with string/color defaults taken here from the absolute-layout variant);
  * the element dispatcher `Element` and (for comparison) the dispatch
    condition as the spec words it;
  * the two navigation handlers `handleNavigate` (absolute-layout variant:
    hash test; grid variant in App.jsx: frame-origin test), modelled as
    state transformers over a browser-state record;
  * the `onRecords` handler of `Dashboard` and its status/tile rendering.

  JavaScript numbers are embedded as `JSNum`: NaN, the two infinities, or a
  finite rational.  Floating-point width plays no role in any claim; only
  NaN/Infinity propagation, `Math.round`, truthiness of `||`, and `+ 1`
  matter, all of which are exact on rationals.
-/

namespace GristCanvas

/-- A JavaScript number: NaN, +Infinity, -Infinity, or a finite value
(embedded as a rational; the claims only involve exact values). -/
inductive JSNum where
  | nan
  | posInf
  | negInf
  | fin (q : ℚ)
deriving DecidableEq

/-- JavaScript truthiness of a number: NaN, 0 and -0 are falsy, everything
else (including the infinities) is truthy.  This is what `||` tests. -/
def JSNum.truthy : JSNum → Bool
  | .nan => false
  | .posInf => true
  | .negInf => true
  | .fin q => if q = 0 then false else true

/-- `Math.round`: NaN and the infinities map to themselves; a finite value
rounds half-up, i.e. `Math.round(q) = ⌊q + 1/2⌋`. -/
def jsRound : JSNum → JSNum
  | .nan => .nan
  | .posInf => .posInf
  | .negInf => .negInf
  | .fin q => .fin ((⌊q + 1/2⌋ : ℤ) : ℚ)

/-- `v || d` for a number `v` and a finite numeric default `d`:
returns `v` when truthy, otherwise the default. -/
def numOr (v : JSNum) (d : ℚ) : JSNum :=
  if v.truthy then v else .fin d

/-- `v + 1` on JavaScript numbers (`NaN + 1 = NaN`, `±Infinity + 1 = ±Infinity`). -/
def jsAddOne : JSNum → JSNum
  | .nan => .nan
  | .posInf => .posInf
  | .negInf => .negInf
  | .fin q => .fin (q + 1)

/-- A JavaScript value sitting in a numeric record field, as delivered by the
host: `undefined` (missing field), `null` (empty cell), a number, or a
string.  `Number()` string parsing is a host primitive, so a string is
embedded together with its `Number()` parse result (e.g. "bad" with `nan`,
"3.6" with `fin (18/5)`). -/
inductive JVal where
  | undef
  | null
  | num (v : JSNum)
  | str (s : String) (parsed : JSNum)
deriving DecidableEq

/-- The `Number()` coercion: `Number(undefined) = NaN`, `Number(null) = 0`,
a number is returned unchanged, a string yields its parse result. -/
def toNumber : JVal → JSNum
  | .undef => .nan
  | .null => .fin 0
  | .num v => v
  | .str _ parsed => parsed

/-- A sub-record of a `Pages` reference: the menu renderer reads `page.id`
and `page.fields.page_name`. -/
structure SubRecord where
  id : ℤ
  page_name : String
deriving DecidableEq

/-- One element of the `Pages` array value: in the standard shape the first
element is the table name (a string) and the second the list of sub-records. -/
inductive PageEntry where
  | strE (s : String)
  | recsE (rs : List SubRecord)
deriving DecidableEq

/-- The value of the `Pages` field: absent, some non-array value, or an
array of entries.  `Array.isArray` and `.length` are what the dispatcher
inspects. -/
inductive PagesVal where
  | absent
  | nonArray
  | arr (elems : List PageEntry)
deriving DecidableEq

/-- `Array.isArray(pages)`. -/
def PagesVal.isArr : PagesVal → Bool
  | .arr _ => true
  | _ => false

/-- `pages.length` (only read under an `isArray` guard in the source). -/
def PagesVal.len : PagesVal → Nat
  | .arr es => es.length
  | _ => 0

/-- `v || d` for a string-valued field (absent/null and "" are falsy). -/
def strOr (v : Option String) (d : String) : String :=
  match v with
  | none => d
  | some s => if s = "" then d else s

/-- Truthiness of a string-valued field, as tested by `rec.Color ? _ : _`. -/
def strTruthy (v : Option String) : Bool :=
  match v with
  | none => false
  | some s => if s = "" then false else true

/-- A source record as delivered by the host (field names follow the source;
`Type` is reserved in Lean, hence `Type_`). -/
structure SourceRecord where
  id : ℤ
  X : JVal
  Y : JVal
  W : JVal
  H : JVal
  Label : Option String
  Link : Option String
  Color : Option String
  Type_ : Option String
  Pages : PagesVal
deriving DecidableEq

/-- The tile view-model produced by `mappedData`. -/
structure Tile where
  id : ℤ
  x : JSNum
  y : JSNum
  w : JSNum
  h : JSNum
  label : String
  link : String
  color : String
  bgColor : String
  type : Option String
  pages : PagesVal
deriving DecidableEq

/-- The per-record body of `mappedData` (absolute-layout variant; the grid
variant in App.jsx has an identical numeric part and differs only in the
label/color default strings, which no claim inspects):

  id: rec.id,
  x: (Math.round(Number(rec.X)) || 0) + 1,
  y: (Math.round(Number(rec.Y)) || 0) + 1,
  w: Math.round(Number(rec.W)) || 2,
  h: Math.round(Number(rec.H)) || 1,
  label: rec.Label || "",
  link: rec.Link || "",
  color: rec.Color || "var(--color-cell-fg, #3d3d3d)",
  bgColor: rec.Color ? "rgba(255,255,255,0.05)" : "var(--color-cell-bg, white)",
  type: rec.Type,
  pages: rec.Pages
-/
def mapRecord (rec : SourceRecord) : Tile where
  id := rec.id
  x := jsAddOne (numOr (jsRound (toNumber rec.X)) 0)
  y := jsAddOne (numOr (jsRound (toNumber rec.Y)) 0)
  w := numOr (jsRound (toNumber rec.W)) 2
  h := numOr (jsRound (toNumber rec.H)) 1
  label := strOr rec.Label ""
  link := strOr rec.Link ""
  color := strOr rec.Color "var(--color-cell-fg, #3d3d3d)"
  bgColor := if strTruthy rec.Color then "rgba(255,255,255,0.05)" else "var(--color-cell-bg, white)"
  type := rec.Type_
  pages := rec.Pages

/-- The empty-configuration status text set by the `onRecords` handler when
the batch is missing or empty. -/
def emptyConfigStatus : String :=
  "No configuration found. Please link to the SysDashboard_Config table."

/-- The host-unavailable status text set at mount when `window.grist` is
missing. -/
def hostUnavailableStatus : String :=
  "Error: Grist API not found."

/-- The state held by `Dashboard`: the mapped items and the status text
(`none` once data has arrived). -/
structure DashboardState where
  items : List Tile
  status : Option String
deriving DecidableEq

/-- The `grist.onRecords` callback body:

  if (!records || records.length === 0) \x7b setStatus(...); setItems([]); return; \x7d
  const mappedData = records.map(rec => (...));
  setItems(mappedData); setStatus(null);
-/
def onRecords (records : Option (List SourceRecord)) : DashboardState :=
  match records with
  | none => { items := [], status := some emptyConfigStatus }
  | some rs =>
    if rs.length = 0 then { items := [], status := some emptyConfigStatus }
    else { items := rs.map mapRecord, status := none }

/-- What `Dashboard` returns: a status div when `status` is set, otherwise
the canvas of tiles. -/
inductive RenderOutput where
  | statusText (s : String)
  | tileList (tiles : List Tile)
deriving DecidableEq

/-- The render branch of `Dashboard`:
`if (status) return <div ...>status</div>;` else the tile canvas. -/
def renderDashboard (s : DashboardState) : RenderOutput :=
  match s.status with
  | some t => .statusText t
  | none => .tileList s.items

/-- The two element kinds the `Element` dispatcher can produce. -/
inductive ElemKind where
  | menu
  | defaultElem
deriving DecidableEq

/-- The `Element` dispatcher:

  if (item.type === "Menu" && Array.isArray(item.pages) && item.pages.length > 1)
    return <MenuElement item /> ;
  return <DefaultElement item /> ;
-/
def elementKind (item : Tile) : ElemKind :=
  if item.type = some "Menu" ∧ item.pages.isArr = true ∧ 1 < item.pages.len then
    ElemKind.menu
  else
    ElemKind.defaultElem

/-- The dispatch condition as the SPEC words it (for comparison with
`elementKind`): `pages` is the non-empty two-element structure
`[tableName, subRecords]` and the sub-record list has more than one entry. -/
def menuDispatchSpec (item : Tile) : Prop :=
  item.type = some "Menu" ∧
    ∃ t rs, item.pages = PagesVal.arr [PageEntry.strE t, PageEntry.recsE rs]
      ∧ 1 < rs.length

/-- A top-level-window URL, split into the parts the navigation code reads
and writes (`new URL(href)` / `url.hash`).  The fragment is stored without
its leading `#`. -/
structure URL where
  origin : String
  pathname : String
  search : String
  hash : String
deriving DecidableEq

/-- Serialization `url.href` (origin ++ path ++ query ++ fragment). -/
def URL.href (u : URL) : String :=
  u.origin ++ u.pathname ++ u.search ++ (if u.hash = "" then "" else "#" ++ u.hash)

/-- The observable state of the top-level window that `handleNavigate`
touches: its current URL, the list of URLs pushed via
`history.pushState(null, "", _)` (each push also updates the current URL in
the hash-rewrite path, which is the only path that computes the new URL
structurally), the number of synthetic `popstate` events dispatched, and
the target of a wholesale `location.href = _` assignment, if any. -/
structure NavState where
  url : URL
  pushedUrls : List String
  popstateCount : Nat
  hardNavigatedTo : Option String
deriving DecidableEq

/-- Models `url.startsWith("#")`: a string starts with the one-character
prefix `"#"` exactly when its first character is `#`. -/
def startsWithHash (u : String) : Bool :=
  match u.data with
  | [] => false
  | c :: _ => c = '#'

/-- `handleNavigate` of the absolute-layout variant:

  if (!url) return;
  if (url.startsWith("#")) \x7b
    const newUrl = new URL(window.top.location.href);
    newUrl.hash = url.substring(1);
    window.top.history.pushState(null, "", newUrl.href);
    window.top.dispatchEvent(new PopStateEvent("popstate"));
  \x7d else \x7b
    window.top.location.href = url;
  \x7d

The target is an `Option String` so that an absent (`undefined`) target and
the empty string both hit the `!url` guard. -/
def handleNavigateAbs (url : Option String) (s : NavState) : NavState :=
  match url with
  | none => s
  | some u =>
    if u = "" then s
    else if startsWithHash u then
      let newUrl : URL := { s.url with hash := u.drop 1 }
      { s with url := newUrl,
               pushedUrls := s.pushedUrls ++ [newUrl.href],
               popstateCount := s.popstateCount + 1 }
    else
      { s with hardNavigatedTo := some u }

/-- `handleNavigate` of the grid variant (App.jsx):

  if (!url) return;
  if (window.top.location.origin === window.location.origin) \x7b
    window.top.history.pushState(null, "", url);
    window.top.dispatchEvent(new PopStateEvent("popstate"));
    return;
  \x7d
  window.top.location.href = url;

`widgetOrigin` is `window.location.origin` of the widget's own frame; the
top window's origin is read from the state.  `pushState` receives the raw
target string, recorded in `pushedUrls` (the browser's resolution of that
raw string against the current URL is a host primitive and is not needed by
any claim). -/
def handleNavigateGrid (url : Option String) (widgetOrigin : String) (s : NavState) : NavState :=
  match url with
  | none => s
  | some u =>
    if u = "" then s
    else if s.url.origin = widgetOrigin then
      { s with pushedUrls := s.pushedUrls ++ [u],
               popstateCount := s.popstateCount + 1 }
    else
      { s with hardNavigatedTo := some u }

/-- A neutral source record (all fields empty), used as the base of the
concrete inputs below. -/
def baseRec : SourceRecord :=
  { id := 0, X := .null, Y := .null, W := .null, H := .null,
    Label := none, Link := none, Color := none, Type_ := none, Pages := .absent }

/-- Record with `W` present and finite zero (counterexample input). -/
def recW0 : SourceRecord := { baseRec with id := 1, W := .num (.fin 0) }

/-- Record with `X = Infinity` (counterexample input). -/
def recXInf : SourceRecord := { baseRec with id := 2, X := .num .posInf }

/-- Record with `X = -5` (counterexample input). -/
def recXNeg : SourceRecord := { baseRec with id := 3, X := .num (.fin (-5)) }

/-- Record with `X = "3.6"` and `Y = "bad"` (the spec's own examples). -/
def recPos : SourceRecord :=
  { baseRec with id := 4, X := .str "3.6" (.fin (18/5)), Y := .str "bad" .nan }

/-- Record with `W = "10.2"` and `H` missing. -/
def recSizesW : SourceRecord :=
  { baseRec with id := 5, W := .str "10.2" (.fin (51/5)), H := .undef }

/-- Record with `W = 0` and `H = "0.4"`, both rounding to zero. -/
def recZeroWH : SourceRecord :=
  { baseRec with id := 6, W := .num (.fin 0), H := .str "0.4" (.fin (2/5)) }

/-- Record with a plain numeric position. -/
def recSample : SourceRecord := { baseRec with id := 7, X := .num (.fin 3) }

/-- A menu-typed tile whose `Pages` value has the standard
`[tableName, subRecords]` shape but only ONE sub-record. -/
def menuTileOneSub : Tile :=
  { id := 10, x := .fin 1, y := .fin 1, w := .fin 2, h := .fin 1,
    label := "", link := "", color := "c", bgColor := "b",
    type := some "Menu",
    pages := PagesVal.arr [PageEntry.strE "Pages",
                           PageEntry.recsE [{ id := 1, page_name := "Home" }]] }

/-- A concrete top-window state for the absolute-layout navigation claims. -/
def navS0 : NavState :=
  { url := { origin := "https://host.example", pathname := "/doc/1", search := "", hash := "old" },
    pushedUrls := [], popstateCount := 0, hardNavigatedTo := none }

/-- A concrete top-window state for the grid-variant navigation claims. -/
def gridS0 : NavState :=
  { url := { origin := "https://a.example", pathname := "/doc", search := "", hash := "" },
    pushedUrls := [], popstateCount := 0, hardNavigatedTo := none }

/-! Helper lemmas about the numeric mapping pipeline. -/

/-- The position pipeline on a NaN input: `(Math.round(NaN) || 0) + 1 = 1`. -/
theorem posMap_nan : jsAddOne (numOr (jsRound JSNum.nan) 0) = JSNum.fin 1 := by
  norm_num [jsRound, numOr, JSNum.truthy, jsAddOne]

/-- The `|| d` default on an integer-valued number: the default exactly at
zero (the only falsy integer), the value itself otherwise. -/
theorem numOr_intCast (n : ℤ) (d : ℚ) :
    numOr (JSNum.fin (n : ℚ)) d = JSNum.fin (if n = 0 then d else (n : ℚ)) := by
  by_cases hn : n = 0
  · subst hn; simp [numOr, JSNum.truthy]
  · have hn2 : (n : ℚ) ≠ 0 := by exact_mod_cast hn
    simp [numOr, JSNum.truthy, hn, hn2]

/-- The position pipeline passes `+Infinity` through. -/
theorem posMap_posInf : jsAddOne (numOr (jsRound JSNum.posInf) 0) = JSNum.posInf := by
  simp [jsRound, numOr, JSNum.truthy, jsAddOne]

/-- The size pipeline on a NaN input yields the default. -/
theorem sizeMap_nan (d : ℚ) : numOr (jsRound JSNum.nan) d = JSNum.fin d := by
  simp [jsRound, numOr, JSNum.truthy]

/-- The size pipeline on a finite input: the default exactly when the value
rounds to zero, the rounded value otherwise. -/
theorem sizeMap_fin (q d : ℚ) :
    numOr (jsRound (JSNum.fin q)) d
      = JSNum.fin (if (⌊q + 1/2⌋ : ℤ) = 0 then d else ((⌊q + 1/2⌋ : ℤ) : ℚ)) :=
  numOr_intCast ⌊q + 1/2⌋ d

/-- The position pipeline on a finite input always yields `round(q) + 1`:
when the rounded value is zero, the `|| 0` default coincides with it. -/
theorem posMap_fin (q : ℚ) :
    jsAddOne (numOr (jsRound (JSNum.fin q)) 0) = JSNum.fin ((⌊q + 1/2⌋ : ℚ) + 1) := by
  rw [sizeMap_fin q 0]
  by_cases hn : (⌊q + 1/2⌋ : ℤ) = 0
  · rw [if_pos hn, hn]; norm_num [jsAddOne]
  · rw [if_neg hn]; rfl

/-- The size pipeline passes `+Infinity` through (it is truthy). -/
theorem sizeMap_posInf (d : ℚ) : numOr (jsRound JSNum.posInf) d = JSNum.posInf := by
  simp [jsRound, numOr, JSNum.truthy]

/-- The size pipeline passes `-Infinity` through (it is truthy). -/
theorem sizeMap_negInf (d : ℚ) : numOr (jsRound JSNum.negInf) d = JSNum.negInf := by
  simp [jsRound, numOr, JSNum.truthy]

/-- Claim C1 (counterexample): a record whose `W` is present and parses to
the finite value 0 gets the default `w = 2`, not `round(W) = 0` as the
claim states for finite parses.  So the defaults are not substituted
"exactly when the field is missing, fails to parse, or is non-finite". -/
theorem mapped_size_claim_counterexample :
    toNumber recW0.W = JSNum.fin 0
      ∧ (mapRecord recW0).w = JSNum.fin 2
      ∧ (mapRecord recW0).w ≠ JSNum.fin ((⌊(0 : ℚ) + 1/2⌋ : ℤ) : ℚ) := by
  have hw : (mapRecord recW0).w = JSNum.fin 2 := by
    have h0 : (mapRecord recW0).w = numOr (jsRound (JSNum.fin 0)) 2 := rfl
    rw [h0, sizeMap_fin]
    norm_num
  refine ⟨rfl, hw, ?_⟩
  rw [hw]
  have h1 : (⌊(0 : ℚ) + 1/2⌋ : ℤ) = 0 := by norm_num
  rw [h1]
  intro h
  injection h with h2
  norm_num at h2

/-- Claim C1 (amended): the defaults `w = 2`, `h = 1` are substituted
exactly when `Math.round(Number(field))` is falsy, i.e. when the field is
missing or unparsable (NaN) or when it parses to a finite value rounding
to 0; a finite parse rounding to a nonzero integer yields that rounded
value, and an infinite parse is passed through as an infinity rather than
defaulted. -/
theorem mapped_size_characterization (rec : SourceRecord) :
    (toNumber rec.W = JSNum.nan → (mapRecord rec).w = JSNum.fin 2)
      ∧ (toNumber rec.H = JSNum.nan → (mapRecord rec).h = JSNum.fin 1)
      ∧ (∀ q : ℚ, toNumber rec.W = JSNum.fin q →
          (mapRecord rec).w
            = JSNum.fin (if (⌊q + 1/2⌋ : ℤ) = 0 then 2 else ((⌊q + 1/2⌋ : ℤ) : ℚ)))
      ∧ (∀ q : ℚ, toNumber rec.H = JSNum.fin q →
          (mapRecord rec).h
            = JSNum.fin (if (⌊q + 1/2⌋ : ℤ) = 0 then 1 else ((⌊q + 1/2⌋ : ℤ) : ℚ)))
      ∧ (toNumber rec.W = JSNum.posInf → (mapRecord rec).w = JSNum.posInf)
      ∧ (toNumber rec.H = JSNum.posInf → (mapRecord rec).h = JSNum.posInf)
      ∧ (toNumber rec.W = JSNum.negInf → (mapRecord rec).w = JSNum.negInf)
      ∧ (toNumber rec.H = JSNum.negInf → (mapRecord rec).h = JSNum.negInf) := by
  have hw : (mapRecord rec).w = numOr (jsRound (toNumber rec.W)) 2 := rfl
  have hh : (mapRecord rec).h = numOr (jsRound (toNumber rec.H)) 1 := rfl
  refine ⟨?_, ?_, ?_, ?_, ?_, ?_, ?_, ?_⟩
  · intro h; rw [hw, h, sizeMap_nan]
  · intro h; rw [hh, h, sizeMap_nan]
  · intro q h; rw [hw, h, sizeMap_fin]
  · intro q h; rw [hh, h, sizeMap_fin]
  · intro h; rw [hw, h, sizeMap_posInf]
  · intro h; rw [hh, h, sizeMap_posInf]
  · intro h; rw [hw, h, sizeMap_negInf]
  · intro h; rw [hh, h, sizeMap_negInf]

/-- Claim C1 (witness): for `W = "10.2"` (finite, rounds to 10) and `H`
missing, the mapped tile has `w = 10` and `h = 1`. -/
theorem mapped_size_characterization_witness :
    (mapRecord recSizesW).w = JSNum.fin 10 ∧ (mapRecord recSizesW).h = JSNum.fin 1 := by
  have h := mapped_size_characterization recSizesW
  constructor
  · have hw := h.2.2.1 (51/5 : ℚ) rfl
    rw [hw]
    norm_num
  · exact h.2.1 rfl

/-- Claim C10: a present `W` (resp. `H`) parsing to a finite value that
rounds to 0 is absorbed by the falsy `||` default, yielding `w = 2`
(resp. `h = 1`), exactly as if the field were missing. -/
theorem zero_size_defaults (rec : SourceRecord) :
    (∀ q : ℚ, toNumber rec.W = JSNum.fin q → (⌊q + 1/2⌋ : ℤ) = 0 →
        (mapRecord rec).w = JSNum.fin 2)
      ∧ (∀ q : ℚ, toNumber rec.H = JSNum.fin q → (⌊q + 1/2⌋ : ℤ) = 0 →
        (mapRecord rec).h = JSNum.fin 1) := by
  constructor
  · intro q h hq
    have hw : (mapRecord rec).w = numOr (jsRound (toNumber rec.W)) 2 := rfl
    rw [hw, h, sizeMap_fin, if_pos hq]
  · intro q h hq
    have hh : (mapRecord rec).h = numOr (jsRound (toNumber rec.H)) 1 := rfl
    rw [hh, h, sizeMap_fin, if_pos hq]

/-- Claim C10 (witness): `W = 0` and `H = "0.4"` (both round to 0) map to
the defaults `w = 2`, `h = 1`. -/
theorem zero_size_defaults_witness :
    (mapRecord recZeroWH).w = JSNum.fin 2 ∧ (mapRecord recZeroWH).h = JSNum.fin 1 := by
  have h := zero_size_defaults recZeroWH
  exact ⟨h.1 0 rfl (by norm_num), h.2 (2/5 : ℚ) rfl (by norm_num)⟩

/-- Claim C3 (counterexample): for `X = Infinity` the claim's defaulting
rule (non-finite parse defaults to 0, so `x = 1`) does not hold: the
infinity is truthy, survives the `|| 0` default, and `Infinity + 1` is
`Infinity`. -/
theorem mapped_position_claim_counterexample :
    toNumber recXInf.X = JSNum.posInf
      ∧ (mapRecord recXInf).x = JSNum.posInf
      ∧ (mapRecord recXInf).x ≠ JSNum.fin 1 := by
  have hx : (mapRecord recXInf).x = JSNum.posInf := by
    have h0 : (mapRecord recXInf).x = jsAddOne (numOr (jsRound JSNum.posInf) 0) := rfl
    rw [h0, posMap_posInf]
  refine ⟨rfl, hx, ?_⟩
  rw [hx]
  intro h
  cases h

/-- Claim C3 (amended): `x = round(X) + 1` and `y = round(Y) + 1` hold for
every finite parse (a finite value rounding to 0 gives the same result as
the 0 default), and a failed parse (NaN) yields `x = 1` / `y = 1`; an
infinite parse, however, propagates as an infinity instead of being
defaulted to 0. -/
theorem mapped_position_characterization (rec : SourceRecord) :
    (toNumber rec.X = JSNum.nan → (mapRecord rec).x = JSNum.fin 1)
      ∧ (∀ q : ℚ, toNumber rec.X = JSNum.fin q →
          (mapRecord rec).x = JSNum.fin ((⌊q + 1/2⌋ : ℚ) + 1))
      ∧ (toNumber rec.Y = JSNum.nan → (mapRecord rec).y = JSNum.fin 1)
      ∧ (∀ q : ℚ, toNumber rec.Y = JSNum.fin q →
          (mapRecord rec).y = JSNum.fin ((⌊q + 1/2⌋ : ℚ) + 1)) := by
  have hx : (mapRecord rec).x = jsAddOne (numOr (jsRound (toNumber rec.X)) 0) := rfl
  have hy : (mapRecord rec).y = jsAddOne (numOr (jsRound (toNumber rec.Y)) 0) := rfl
  refine ⟨?_, ?_, ?_, ?_⟩
  · intro h; rw [hx, h, posMap_nan]
  · intro q h; rw [hx, h, posMap_fin]
  · intro h; rw [hy, h, posMap_nan]
  · intro q h; rw [hy, h, posMap_fin]

/-- Claim C3 (witness): the spec's own examples `X = "3.6" → x = 5` and
`Y = "bad" → y = 1`. -/
theorem mapped_position_characterization_witness :
    (mapRecord recPos).x = JSNum.fin 5 ∧ (mapRecord recPos).y = JSNum.fin 1 := by
  have h := mapped_position_characterization recPos
  refine ⟨?_, h.2.2.1 rfl⟩
  rw [h.2.1 (18/5 : ℚ) rfl]
  norm_num

/-- Claim C9 (counterexample): for `X = -5` the mapped `x` is `-4`, so the
mapped coordinates are not 1-based for every source record: the `+ 1`
offset is applied without clamping. -/
theorem one_based_claim_counterexample :
    (mapRecord recXNeg).x = JSNum.fin (-4 : ℚ)
      ∧ ¬ ∃ a : ℤ, (mapRecord recXNeg).x = JSNum.fin (a : ℚ) ∧ 1 ≤ a := by
  have hx : (mapRecord recXNeg).x = JSNum.fin (-4 : ℚ) := by
    have h0 : (mapRecord recXNeg).x = jsAddOne (numOr (jsRound (JSNum.fin (-5))) 0) := rfl
    rw [h0, posMap_fin]
    norm_num
  refine ⟨hx, ?_⟩
  rintro ⟨a, ha, h1⟩
  rw [hx] at ha
  injection ha with h2
  have h3 : a = -4 := by exact_mod_cast h2.symm
  omega

/-- Per-axis helper for the one-based property: if the parse is NaN or a
finite value whose rounding is nonnegative, the mapped coordinate is an
integer at least 1. -/
theorem axis_one_based (v : JSNum)
    (h : v = JSNum.nan ∨ ∃ q : ℚ, v = JSNum.fin q ∧ 0 ≤ ⌊q + 1/2⌋) :
    ∃ a : ℤ, jsAddOne (numOr (jsRound v) 0) = JSNum.fin (a : ℚ) ∧ 1 ≤ a := by
  rcases h with h | ⟨q, hq, hge⟩
  · refine ⟨1, ?_, le_refl 1⟩
    rw [h, posMap_nan]
    norm_num
  · refine ⟨⌊q + 1/2⌋ + 1, ?_, by omega⟩
    rw [hq, posMap_fin]
    congr 1
    push_cast
    ring

/-- Claim C9 (amended): the mapped `x` and `y` are integers with
`x ≥ 1` and `y ≥ 1` provided each of `X` and `Y` either fails to parse
(NaN) or parses to a finite value whose rounding is nonnegative (the
host's 0-based convention); a negative coordinate is not clamped and
yields a value below 1. -/
theorem mapped_xy_one_based (rec : SourceRecord)
    (hX : toNumber rec.X = JSNum.nan
      ∨ ∃ q : ℚ, toNumber rec.X = JSNum.fin q ∧ 0 ≤ ⌊q + 1/2⌋)
    (hY : toNumber rec.Y = JSNum.nan
      ∨ ∃ q : ℚ, toNumber rec.Y = JSNum.fin q ∧ 0 ≤ ⌊q + 1/2⌋) :
    ∃ a b : ℤ, (mapRecord rec).x = JSNum.fin (a : ℚ) ∧ (mapRecord rec).y = JSNum.fin (b : ℚ)
      ∧ 1 ≤ a ∧ 1 ≤ b := by
  obtain ⟨a, hax, ha⟩ := axis_one_based (toNumber rec.X) hX
  obtain ⟨b, hby, hb⟩ := axis_one_based (toNumber rec.Y) hY
  exact ⟨a, b, hax, hby, ha, hb⟩

/-- Claim C9 (witness): for `X = 3` and `Y` null (parses to 0), the mapped
coordinates are the integers `x = 4 ≥ 1` and `y = 1 ≥ 1`. -/
theorem mapped_xy_one_based_witness :
    ∃ a b : ℤ, (mapRecord recSample).x = JSNum.fin (a : ℚ)
      ∧ (mapRecord recSample).y = JSNum.fin (b : ℚ) ∧ 1 ≤ a ∧ 1 ≤ b :=
  mapped_xy_one_based recSample
    (Or.inr ⟨3, rfl, by norm_num⟩)
    (Or.inr ⟨0, rfl, by norm_num⟩)

/-- The dispatch condition on the `pages` value alone: `Array.isArray` and
outer length above one, characterized structurally. -/
theorem menu_cond_iff (p : PagesVal) :
    (p.isArr = true ∧ 1 < p.len) ↔ ∃ es, p = PagesVal.arr es ∧ 1 < es.length := by
  cases p with
  | absent => simp [PagesVal.isArr, PagesVal.len]
  | nonArray => simp [PagesVal.isArr, PagesVal.len]
  | arr es => simp [PagesVal.isArr, PagesVal.len]

/-- Claim C2 (counterexample): a tile with `type = "Menu"` and
`pages = ["Pages", [one sub-record]]` dispatches to the MENU sub-renderer,
because the code tests the OUTER array length (`pages.length > 1`, which
is 2 here), not the sub-record count; the claim as stated requires the
default sub-renderer for exactly one sub-record. -/
theorem element_dispatch_counterexample :
    elementKind menuTileOneSub = ElemKind.menu ∧ ¬ menuDispatchSpec menuTileOneSub := by
  constructor
  · decide
  · rintro ⟨-, t, rs, hp, hl⟩
    have hp2 : PagesVal.arr [PageEntry.strE "Pages",
        PageEntry.recsE [{ id := 1, page_name := "Home" }]]
        = PagesVal.arr [PageEntry.strE t, PageEntry.recsE rs] := hp
    simp only [PagesVal.arr.injEq, List.cons.injEq, PageEntry.strE.injEq,
      PageEntry.recsE.injEq, and_true] at hp2
    obtain ⟨-, hrs⟩ := hp2
    rw [← hrs] at hl
    simp at hl

/-- Claim C2 (amended): the renderer dispatches to the menu sub-renderer
if and only if the tile's type equals "Menu" and its `pages` value is an
array with more than one element (which the standard
`[tableName, subRecords]` pair always is); the number of sub-records is
not examined, so even zero or one sub-record yields the menu
sub-renderer. -/
theorem element_dispatch_amended (item : Tile) :
    elementKind item = ElemKind.menu ↔
      (item.type = some "Menu" ∧ ∃ es, item.pages = PagesVal.arr es ∧ 1 < es.length) := by
  constructor
  · intro h
    by_cases hc : item.type = some "Menu" ∧ item.pages.isArr = true ∧ 1 < item.pages.len
    · exact ⟨hc.1, (menu_cond_iff item.pages).mp ⟨hc.2.1, hc.2.2⟩⟩
    · rw [elementKind, if_neg hc] at h
      cases h
  · rintro ⟨h1, es, hp, hl⟩
    have hc : item.type = some "Menu" ∧ item.pages.isArr = true ∧ 1 < item.pages.len := by
      refine ⟨h1, ?_, ?_⟩
      · rw [hp]; rfl
      · rw [hp]; simpa [PagesVal.len] using hl
    rw [elementKind, if_pos hc]

/-- Claim C4: for a target starting with `#`, the absolute-layout
navigation handler rewrites only the hash of the top-level URL (origin,
path and query are carried over unchanged), pushes exactly one history
entry (the rewritten URL), fires exactly one popstate notification, and
performs no wholesale location replacement. -/
theorem abs_hash_nav (u : String) (s : NavState) (h : startsWithHash u = true) :
    handleNavigateAbs (some u) s =
      { s with url := { s.url with hash := u.drop 1 },
               pushedUrls := s.pushedUrls ++ [URL.href { s.url with hash := u.drop 1 }],
               popstateCount := s.popstateCount + 1 } := by
  have hne : u ≠ "" := by
    intro he
    subst he
    exact absurd h (by decide)
  simp [handleNavigateAbs, hne, h]

/-- Claim C4 (witness): navigating to `"#p=Budget"` from
`https://host.example/doc/1#old` rewrites only the fragment, pushes the
single entry `https://host.example/doc/1#p=Budget`, and fires one
popstate. -/
theorem abs_hash_nav_witness :
    handleNavigateAbs (some "#p=Budget") navS0 =
      { url := { origin := "https://host.example", pathname := "/doc/1", search := "",
                 hash := "p=Budget" },
        pushedUrls := ["https://host.example/doc/1#p=Budget"],
        popstateCount := 1, hardNavigatedTo := none } := by
  rw [abs_hash_nav "#p=Budget" navS0 (by decide)]
  decide

/-- Claim C5 (counterexample): with the top window at origin
`https://a.example` but the widget frame at `https://evil.example`, the
grid-variant handler given the target `https://a.example/x` — which DOES
share its origin with the top-level window — performs a wholesale
location replacement and pushes nothing: the code compares the frame
origins, never the target's origin. -/
theorem grid_nav_claim_counterexample :
    gridS0.url.origin = "https://a.example"
      ∧ "https://a.example/x" = gridS0.url.origin ++ "/x"
      ∧ handleNavigateGrid (some "https://a.example/x") "https://evil.example" gridS0 =
          { gridS0 with hardNavigatedTo := some "https://a.example/x" }
      ∧ (handleNavigateGrid (some "https://a.example/x") "https://evil.example"
          gridS0).pushedUrls = []
      ∧ (handleNavigateGrid (some "https://a.example/x") "https://evil.example"
          gridS0).popstateCount = 0 := by
  refine ⟨rfl, by decide, by decide, by decide, by decide⟩

/-- Claim C5 (amended): the grid-variant handler decides between history
push and wholesale replacement by comparing the TOP window's origin with
the WIDGET frame's origin, not the target's origin: whenever those two
frame origins agree, every non-empty target is pushed as one new history
entry (the raw target URL, no reload) and exactly one popstate
notification is fired. -/
theorem grid_nav_same_frame_origin (u wo : String) (s : NavState)
    (hne : u ≠ "") (ho : s.url.origin = wo) :
    handleNavigateGrid (some u) wo s =
      { s with pushedUrls := s.pushedUrls ++ [u],
               popstateCount := s.popstateCount + 1 } := by
  simp [handleNavigateGrid, hne, ho]

/-- Claim C5 (witness): with top and widget frame both at
`https://a.example`, the target `https://a.example/x` is pushed as one
history entry with one popstate and no replacement. -/
theorem grid_nav_same_frame_origin_witness :
    handleNavigateGrid (some "https://a.example/x") "https://a.example" gridS0 =
      { url := { origin := "https://a.example", pathname := "/doc", search := "", hash := "" },
        pushedUrls := ["https://a.example/x"],
        popstateCount := 1, hardNavigatedTo := none } := by
  rw [grid_nav_same_frame_origin "https://a.example/x" "https://a.example" gridS0
    (by decide) rfl]
  decide

/-- Claim C6: for any non-empty target not starting with `#` (in
particular every cross-origin absolute URL), the absolute-layout handler
performs a wholesale location replacement with no history push and no
popstate notification; an absent or empty target is a complete no-op. -/
theorem abs_nav_replace_and_noop (u : String) (s : NavState)
    (hne : u ≠ "") (hh : startsWithHash u = false) :
    handleNavigateAbs (some u) s = { s with hardNavigatedTo := some u }
      ∧ handleNavigateAbs none s = s
      ∧ handleNavigateAbs (some "") s = s := by
  refine ⟨?_, rfl, ?_⟩
  · simp [handleNavigateAbs, hne, hh]
  · simp [handleNavigateAbs]

/-- Claim C6 (witness): the cross-origin absolute target
`https://other.example/x` yields a full location replacement (and the
empty/absent targets do nothing). -/
theorem abs_nav_replace_and_noop_witness :
    handleNavigateAbs (some "https://other.example/x") navS0 =
        { navS0 with hardNavigatedTo := some "https://other.example/x" }
      ∧ handleNavigateAbs none navS0 = navS0
      ∧ handleNavigateAbs (some "") navS0 = navS0 :=
  abs_nav_replace_and_noop "https://other.example/x" navS0 (by decide) (by decide)

/-- Claim C7: an absent or empty record batch renders the
empty-configuration status text (distinct from the host-unavailable
text) rather than a tile list; a non-empty batch produces a view-model
list of the same length in the same order (element `i` is the mapping of
record `i`). -/
theorem dashboard_records_handler :
    renderDashboard (onRecords none) = RenderOutput.statusText emptyConfigStatus
      ∧ renderDashboard (onRecords (some [])) = RenderOutput.statusText emptyConfigStatus
      ∧ emptyConfigStatus ≠ hostUnavailableStatus
      ∧ ∀ rs : List SourceRecord, rs ≠ [] →
          onRecords (some rs) = { items := rs.map mapRecord, status := none }
            ∧ (onRecords (some rs)).items.length = rs.length
            ∧ (∀ i : Nat, (onRecords (some rs)).items.get? i = (rs.get? i).map mapRecord)
            ∧ renderDashboard (onRecords (some rs)) = RenderOutput.tileList (rs.map mapRecord) := by
  refine ⟨rfl, rfl, by decide, ?_⟩
  intro rs h
  have hlen : rs.length ≠ 0 := fun hc => h (List.length_eq_zero.mp hc)
  have h1 : onRecords (some rs) = { items := rs.map mapRecord, status := none } := by
    simp [onRecords, hlen]
  refine ⟨h1, ?_, ?_, ?_⟩
  · rw [h1]; simp
  · intro i; rw [h1]; simp
  · rw [h1]; rfl

/-- Claim C7 (witness): a one-record batch yields a one-tile view-model
list. -/
theorem dashboard_records_handler_witness :
    (onRecords (some [recSample])).items.length = [recSample].length :=
  (dashboard_records_handler.2.2.2 [recSample] (by simp)).2.1

end GristCanvas
